import Mathlib

/-!
Verification of the webhook dispatcher in `src/app.py` (a FastAPI service
forwarding TradingView webhook alerts to WhatsApp via the Twilio API).

The embedding models the `POST /webhook` handler as a pure function from
the request's observable inputs (the configured secret, the optional
`X-Webhook-Token` header, the outcome of `request.json()`, the raw body
bytes and the outcome of the external Twilio call) to the ordered trace of
externally visible events it produces: the outbound delivery call, the
HTTP response, or an unhandled exception. The module-level environment
validation (lines 20-34 of `src/app.py`) is modelled as `startupCheck`.
-/

namespace TvWhatsapp

/-- Model of the Python values that `request.json()` can produce
(`json.loads` results): JSON numbers are modelled as integers, which is
enough for every claim under study. Objects are association lists; real
parses have unique keys, so first-match lookup agrees with `dict.get`. -/
inductive Json where
  | null : Json
  | bool (b : Bool) : Json
  | num (n : Int) : Json
  | str (s : String) : Json
  | arr (elems : List Json) : Json
  | obj (fields : List (String × Json)) : Json
deriving Repr

/-- Python truthiness (`if not text:`) on a JSON-parsed value:
`None`/`False`/`0`/`""`/`[]`/`{}` are falsy, everything else truthy. -/
def Json.truthy : Json → Bool
  | .null => false
  | .bool b => b
  | .num n => n != 0
  | .str s => s != ""
  | .arr elems => !elems.isEmpty
  | .obj fields => !fields.isEmpty

/-- `dict.get("message")` on the parsed body when it is a dict, `None`
otherwise (`body.get("message") if isinstance(body, dict) else None`). -/
def Json.getMessage : Json → Option Json
  | .obj fields => fields.lookup "message"
  | _ => none

/-- Model of Python slicing `s[:n]` on a `str`: the first `n` code points. -/
def pyTake (s : String) (n : Nat) : String :=
  String.mk (s.data.take n)

/-- A run of `n` spaces, used by the `indent=2` pretty printer. -/
def spaces (n : Nat) : String :=
  String.mk (List.replicate n ' ')

/-- Four lowercase hexadecimal digits of `n % 65536`, as in Python's
`\uXXXX` escapes. -/
def hex4 (n : Nat) : String :=
  let d := fun (k : Nat) =>
    let m := k % 16
    if m < 10 then Char.ofNat (48 + m) else Char.ofNat (87 + m)
  String.mk [d (n / 4096), d (n / 256), d (n / 16), d n]

/-- Escaping of one character by `json.dumps` with its default
`ensure_ascii=True`: the two JSON metacharacters and the five short
escapes, printable ASCII kept literal, everything else as `\uXXXX`
(astral code points as a surrogate pair). -/
def pyJsonEscape (c : Char) : String :=
  if c = '"' then "\\\""
  else if c = '\\' then "\\\\"
  else if c = Char.ofNat 8 then "\\b"
  else if c = Char.ofNat 12 then "\\f"
  else if c = '\n' then "\\n"
  else if c = '\r' then "\\r"
  else if c = '\t' then "\\t"
  else if 32 ≤ c.toNat ∧ c.toNat ≤ 126 then String.mk [c]
  else if c.toNat < 65536 then "\\u" ++ hex4 c.toNat
  else
    let v := c.toNat - 65536
    "\\u" ++ hex4 (55296 + v / 1024) ++ "\\u" ++ hex4 (56320 + v % 1024)

/-- A JSON string literal as `json.dumps` renders it. -/
def pyJsonQuote (s : String) : String :=
  "\"" ++ String.join (s.data.map pyJsonEscape) ++ "\""

mutual

/-- `json.dumps(v, indent=2)` at nesting depth `k`: scalars inline,
non-empty containers spread one element per line, indented two spaces per
level, with the `(",", ": ")` separators Python uses when `indent` is
given. -/
def Json.dumpsAux : Json → Nat → String
  | .null, _ => "null"
  | .bool true, _ => "true"
  | .bool false, _ => "false"
  | .num n, _ => toString n
  | .str s, _ => pyJsonQuote s
  | .arr [], _ => "[]"
  | .arr (e :: es), k =>
      "[\n" ++ Json.dumpsItems (e :: es) (k + 1) ++ "\n" ++ spaces (2 * k) ++ "]"
  | .obj [], _ => "\x7b\x7d"
  | .obj (f :: fs), k =>
      "\x7b\n" ++ Json.dumpsFields (f :: fs) (k + 1) ++ "\n" ++ spaces (2 * k) ++ "\x7d"

/-- The comma-and-newline separated, indented renderings of array items. -/
def Json.dumpsItems : List Json → Nat → String
  | [], _ => ""
  | [e], k => spaces (2 * k) ++ Json.dumpsAux e k
  | e :: e2 :: es, k =>
      spaces (2 * k) ++ Json.dumpsAux e k ++ ",\n" ++ Json.dumpsItems (e2 :: es) k

/-- The comma-and-newline separated, indented `"key": value` renderings of
object fields. -/
def Json.dumpsFields : List (String × Json) → Nat → String
  | [], _ => ""
  | [(key, v)], k => spaces (2 * k) ++ pyJsonQuote key ++ ": " ++ Json.dumpsAux v k
  | (key, v) :: f2 :: fs, k =>
      spaces (2 * k) ++ pyJsonQuote key ++ ": " ++ Json.dumpsAux v k ++ ",\n"
        ++ Json.dumpsFields (f2 :: fs) k

end

/-- `json.dumps(v, indent=2)` (line 101 of `src/app.py`). -/
def Json.dumps (v : Json) : String :=
  Json.dumpsAux v 0

/-- Is `b` a UTF-8 continuation byte (`0x80..0xBF`)? -/
def isCont (b : Nat) : Bool :=
  128 ≤ b ∧ b ≤ 191

/-- Model of `raw.decode('utf-8', errors='ignore')` (line 105 of
`src/app.py`): standard UTF-8 decoding where each maximal invalid subpart
is dropped and decoding continues, as CPython's `ignore` handler does.
Second-byte ranges follow the Unicode table (no overlongs, no surrogates,
nothing above U+10FFFF). -/
def utf8DecodeIgnore : List Nat → List Char
  | [] => []
  | b :: rest =>
    if b < 128 then
      Char.ofNat b :: utf8DecodeIgnore rest
    else if 194 ≤ b ∧ b ≤ 223 then
      match h1 : rest with
      | c :: rest2 =>
        if isCont c then
          Char.ofNat ((b - 192) * 64 + (c - 128)) :: utf8DecodeIgnore rest2
        else
          utf8DecodeIgnore rest
      | [] => []
    else if 224 ≤ b ∧ b ≤ 239 then
      let lo := if b = 224 then 160 else 128
      let hi := if b = 237 then 159 else 191
      match h1 : rest with
      | c :: rest2 =>
        if lo ≤ c ∧ c ≤ hi then
          match h2 : rest2 with
          | d :: rest3 =>
            if isCont d then
              Char.ofNat ((b - 224) * 4096 + (c - 128) * 64 + (d - 128))
                :: utf8DecodeIgnore rest3
            else
              utf8DecodeIgnore rest2
          | [] => []
        else
          utf8DecodeIgnore rest
      | [] => []
    else if 240 ≤ b ∧ b ≤ 244 then
      let lo := if b = 240 then 144 else 128
      let hi := if b = 244 then 143 else 191
      match h1 : rest with
      | c :: rest2 =>
        if lo ≤ c ∧ c ≤ hi then
          match h2 : rest2 with
          | d :: rest3 =>
            if isCont d then
              match h3 : rest3 with
              | e :: rest4 =>
                if isCont e then
                  Char.ofNat ((b - 240) * 262144 + (c - 128) * 4096
                      + (d - 128) * 64 + (e - 128))
                    :: utf8DecodeIgnore rest4
                else
                  utf8DecodeIgnore rest3
              | [] => []
            else
              utf8DecodeIgnore rest2
          | [] => []
        else
          utf8DecodeIgnore rest
      | [] => []
    else
      utf8DecodeIgnore rest
termination_by bs => bs.length
decreasing_by all_goals (subst_vars; simp_arith [*])

/-- The dynamic type of the Python variable `text` at line 108 of
`src/app.py`: either a `str` (the usual case) or, when the parsed body's
`message` field held a truthy non-string, that JSON value itself. -/
inductive PyText where
  | ofStr (s : String) : PyText
  | ofJson (v : Json) : PyText
deriving Repr

/-- Outcome of the external `client.messages.create` call, which is
outside the repository: success with the returned message SID, or a
raised exception with its message. -/
inductive DelResult where
  | ok (sid : String) : DelResult
  | fail (e : String) : DelResult
deriving Repr

/-- The JSON body of an HTTP response produced by the handler. -/
inductive RespBody where
  /-- `{"status": "sent", "sid": sid}` (line 121). -/
  | sentBody (sid : String) : RespBody
  /-- `HTTPException(status_code, detail)` rendered by FastAPI as
  `{"detail": detail}`. -/
  | errorDetail (detail : String) : RespBody
deriving Repr

/-- One externally visible event of a `POST /webhook` invocation, in
request-path order. -/
inductive Event where
  /-- The outbound `client.messages.create(from_, to, body)` call is
  performed with the given `body` argument (lines 113-117). -/
  | deliveryCall (body : PyText) : Event
  /-- The HTTP response is produced and returned to the webhook caller. -/
  | respond (status : Nat) (body : RespBody) : Event
  /-- An unhandled exception escapes the handler (FastAPI then produces a
  generic 500 with no delivery having been made). -/
  | crash : Event
deriving Repr

/-- Lines 93-106 of `src/app.py`: the payload normalization.
`parsed` is the outcome of `await request.json()` — `some` the parsed
value when the raw bytes are valid JSON, `none` when parsing raised (the
bare `except:`) — and `raw` is the body bytes used by the fallback.

```
text = body.get("message") if isinstance(body, dict) else None
if not text:
    text = json.dumps(body, indent=2)
```
with the `except:` branch `text = raw.decode('utf-8', errors='ignore')`. -/
def normText (parsed : Option Json) (raw : List Nat) : PyText :=
  match parsed with
  | some body =>
    match body.getMessage with
    | some v =>
      if v.truthy then
        match v with
        | .str s => .ofStr s
        | _ => .ofJson v
      else .ofStr body.dumps
    | none => .ofStr body.dumps
  | none => .ofStr (String.mk (utf8DecodeIgnore raw))

/-- Which Python values survive the slice expressions `text[:100]`
(line 109) and `text[:1600]` (line 116) without a `TypeError`: only
`str` and `list` support slicing (ints, bools and dicts do not). -/
def PyText.sliceable : PyText → Bool
  | .ofStr _ => true
  | .ofJson (.arr _) => true
  | .ofJson _ => false

/-- The response event of the delivery `try`/`except` (lines 111-125):
on success return `{"status": "sent", "sid": msg.sid}` (status 200), on
exception `raise HTTPException(500, f"Twilio error: {e}")`. -/
def respOf : DelResult → Event
  | .ok sid => .respond 200 (.sentBody sid)
  | .fail e => .respond 500 (.errorDetail ("Twilio error: " ++ e))

/-- Lines 93-125 of `src/app.py`: everything after the token check.
The normalized `text` is sliced for the log preview at line 109 — a
`TypeError` there escapes the handler (`Event.crash`) — then the Twilio
call is made inline with `body=text[:1600]` and only afterwards is the
response produced, its content depending on the call's outcome. -/
def runBody (parsed : Option Json) (raw : List Nat) (res : DelResult) : List Event :=
  match normText parsed raw with
  | .ofStr s => [.deliveryCall (.ofStr (pyTake s 1600)), respOf res]
  | .ofJson (.arr elems) => [.deliveryCall (.ofJson (.arr (elems.take 1600))), respOf res]
  | .ofJson _ => [.crash]

/-- The `POST /webhook` handler (lines 75-125 of `src/app.py`) as a trace
of events. `secret` is the configured `WEBHOOK_TOKEN`; `token` the
`X-Webhook-Token` request header (`none` when absent). The token check is
`if token:` — so an absent or empty header skips validation — and a
mismatch raises `HTTPException(401, "Unauthorized")` before any
normalization or delivery. -/
def webhook (secret : String) (token : Option String) (parsed : Option Json)
    (raw : List Nat) (res : DelResult) : List Event :=
  match token with
  | some t =>
    if t ≠ "" then
      if t ≠ secret then
        [.respond 401 (.errorDetail "Unauthorized")]
      else
        runBody parsed raw res
    else
      runBody parsed raw res
  | none => runBody parsed raw res

/-- Python truthiness of an `os.getenv` result: unset (`None`) or the
empty string are falsy. -/
def pyFalsyEnv : Option String → Bool
  | none => true
  | some s => s = ""

/-- Lines 20-33 of `src/app.py`: the five configuration values paired
with their environment variable names, in the order of the dict at lines
27-33. `TWILIO_FROM_WHATSAPP` has the default `"whatsapp:+14155238886"`
applied by `os.getenv`, so it is never unset (though it can be empty). -/
def configPairs (env : String → Option String) : List (String × Option String) :=
  [("TWILIO_ACCOUNT_SID", env "TWILIO_ACCOUNT_SID"),
   ("TWILIO_AUTH_TOKEN", env "TWILIO_AUTH_TOKEN"),
   ("TWILIO_FROM_WHATSAPP", some ((env "TWILIO_FROM_WHATSAPP").getD "whatsapp:+14155238886")),
   ("TWILIO_TO_WHATSAPP", env "TWILIO_TO_WHATSAPP"),
   ("WEBHOOK_TOKEN", env "WEBHOOK_TOKEN")]

/-- The names of the falsy configuration values, as collected by the
comprehension `[k for k, v in {...}.items() if not v]` at lines 27-33. -/
def missingVars (env : String → Option String) : List String :=
  ((configPairs env).filter (fun p => pyFalsyEnv p.2)).map Prod.fst

/-- Lines 26-34 of `src/app.py`: the module-level startup validation.
`if not all([...]): raise RuntimeError(f"Missing env vars: ...")` — this
runs at import time, before the FastAPI `app` object is even created, so
an error here means the process never serves traffic. -/
def startupCheck (env : String → Option String) : Except String Unit :=
  if (configPairs env).all (fun p => !pyFalsyEnv p.2) then
    .ok ()
  else
    .error ("Missing env vars: " ++ String.intercalate ", " (missingVars env))

/-- The bodies of the outbound delivery calls occurring in a trace. -/
def deliveries (tr : List Event) : List PyText :=
  tr.filterMap fun ev =>
    match ev with
    | .deliveryCall b => some b
    | _ => none

/-! ### Helper lemmas -/

/-- The token check is skipped (and the handler falls through to
normalization and delivery) whenever the header is absent, empty, or
equal to the configured secret. -/
theorem webhook_auth_eq_runBody (secret : String) (token : Option String)
    (parsed : Option Json) (raw : List Nat) (res : DelResult)
    (hA : token = none ∨ token = some "" ∨ token = some secret) :
    webhook secret token parsed raw res = runBody parsed raw res := by
  rcases hA with h | h | h <;> subst h
  · rfl
  · simp [webhook]
  · by_cases hs : secret = "" <;> simp [webhook, hs]

/-- When normalization yields a string, the post-auth pipeline performs
the delivery call with the 1600-character truncation and then responds
according to the delivery outcome. -/
theorem runBody_of_normText_str (parsed : Option Json) (raw : List Nat)
    (res : DelResult) (s : String) (hs : normText parsed raw = PyText.ofStr s) :
    runBody parsed raw res = [Event.deliveryCall (PyText.ofStr (pyTake s 1600)), respOf res] := by
  simp [runBody, hs]

/-- Python's `s[:n]` never yields more than `n` characters. -/
theorem length_pyTake_le (s : String) (n : Nat) : (pyTake s n).length ≤ n := by
  have h : (pyTake s n).length = (s.data.take n).length := rfl
  rw [h, List.length_take]
  exact Nat.min_le_left _ _

/-- Every response the post-auth pipeline can produce has status 200 or
500; in particular it never responds 401. -/
theorem runBody_respond_status (parsed : Option Json) (raw : List Nat)
    (res : DelResult) (st : Nat) (b : RespBody)
    (hmem : Event.respond st b ∈ runBody parsed raw res) : st = 200 ∨ st = 500 := by
  rcases hn : normText parsed raw with s | v
  · rcases res with sid | e <;>
      simp [runBody, hn, respOf] at hmem <;>
      first
        | exact Or.inl hmem.1
        | exact Or.inr hmem.1
  · rcases v with _ | _ | _ | _ | elems | fields <;>
      rcases res with sid | e <;>
      simp [runBody, hn, respOf] at hmem <;>
      first
        | exact Or.inl hmem.1
        | exact Or.inr hmem.1

/-! ### Claim theorems -/

/-- Claim C1, counterexample: the acknowledgment is NOT returned before or
independent of the outbound delivery call. For a concrete accepted request
the trace places the delivery call strictly before the response, and the
response itself changes with the delivery outcome (200 on success, 500 on
failure) — so the response waits for the inline delivery to complete; no
detached background task exists. -/
theorem webhook_ack_after_delivery_cex :
    (webhook "s1" none (some (Json.obj [("message", Json.str "alpha")])) []
        (DelResult.ok "SMa")
      = [Event.deliveryCall (PyText.ofStr "alpha"),
         Event.respond 200 (RespBody.sentBody "SMa")])
    ∧ (webhook "s1" none (some (Json.obj [("message", Json.str "alpha")])) []
        (DelResult.fail "down")
      = [Event.deliveryCall (PyText.ofStr "alpha"),
         Event.respond 500 (RespBody.errorDetail "Twilio error: down")]) :=
  ⟨rfl, rfl⟩

/-- Claim C1, amended: for every accepted `POST /webhook` request whose
normalized payload is a string, the outbound delivery call is performed
inline on the request path — it is the first event of the trace and the
response is produced only afterwards, with its content determined by the
delivery outcome (so the acknowledgment is returned after, and dependent
on, the completion of the delivery call; no background task is used). -/
theorem webhook_delivery_inline (secret : String) (token : Option String)
    (parsed : Option Json) (raw : List Nat) (s : String)
    (hA : token = none ∨ token = some "" ∨ token = some secret)
    (hs : normText parsed raw = PyText.ofStr s) :
    (∀ res, webhook secret token parsed raw res
      = [Event.deliveryCall (PyText.ofStr (pyTake s 1600)), respOf res])
    ∧ (∀ sid e, respOf (DelResult.ok sid) ≠ respOf (DelResult.fail e)) := by
  constructor
  · intro res
    rw [webhook_auth_eq_runBody secret token parsed raw res hA]
    exact runBody_of_normText_str parsed raw res s hs
  · intro sid e
    simp [respOf]

/-- Witness for C1's amended theorem at a concrete accepted request. -/
theorem webhook_delivery_inline_witness :
    webhook "s1w" none (some (Json.obj [("message", Json.str "omega")])) []
        (DelResult.ok "SMw")
      = [Event.deliveryCall (PyText.ofStr (pyTake "omega" 1600)),
         respOf (DelResult.ok "SMw")] :=
  (webhook_delivery_inline "s1w" none
    (some (Json.obj [("message", Json.str "omega")])) [] "omega"
    (Or.inl rfl) rfl).1 (DelResult.ok "SMw")

/-- Claim C2, counterexample: a delivery failure is surfaced to the
webhook caller. For a concrete accepted request whose Twilio call raises,
the handler responds 500 with the error detail instead of an
acknowledgment — the failure is not merely logged. -/
theorem webhook_failure_surfaced_cex :
    webhook "s2" none (some (Json.obj [("message", Json.str "beta")])) []
        (DelResult.fail "conn reset")
      = [Event.deliveryCall (PyText.ofStr "beta"),
         Event.respond 500 (RespBody.errorDetail "Twilio error: conn reset")] :=
  rfl

/-- Claim C2, amended: for every accepted request whose normalized payload
is a string, a failing outbound delivery is surfaced to the webhook caller
as a 500 response carrying `Twilio error: <e>` (the error is logged AND
re-raised as an `HTTPException`, not swallowed). -/
theorem webhook_failure_returns_500 (secret : String) (token : Option String)
    (parsed : Option Json) (raw : List Nat) (s e : String)
    (hA : token = none ∨ token = some "" ∨ token = some secret)
    (hs : normText parsed raw = PyText.ofStr s) :
    webhook secret token parsed raw (DelResult.fail e)
      = [Event.deliveryCall (PyText.ofStr (pyTake s 1600)),
         Event.respond 500 (RespBody.errorDetail ("Twilio error: " ++ e))] := by
  rw [webhook_auth_eq_runBody secret token parsed raw _ hA]
  exact runBody_of_normText_str parsed raw _ s hs

/-- Witness for C2's amended theorem at a concrete failing delivery. -/
theorem webhook_failure_returns_500_witness :
    webhook "s2w" none (some (Json.obj [("message", Json.str "kappa")])) []
        (DelResult.fail "timeout")
      = [Event.deliveryCall (PyText.ofStr (pyTake "kappa" 1600)),
         Event.respond 500 (RespBody.errorDetail ("Twilio error: " ++ "timeout"))] :=
  webhook_failure_returns_500 "s2w" none
    (some (Json.obj [("message", Json.str "kappa")])) [] "kappa" "timeout"
    (Or.inl rfl) rfl

/-- Claim C3, counterexample: the success response is not
`202 Accepted` with `{accepted, queued_at}`. For a concrete successful
request the handler responds with status 200 and body
`{"status": "sent", "sid": ...}`. -/
theorem webhook_success_response_cex :
    (webhook "s3" none (some (Json.obj [("message", Json.str "gamma")])) []
        (DelResult.ok "SM123")
      = [Event.deliveryCall (PyText.ofStr "gamma"),
         Event.respond 200 (RespBody.sentBody "SM123")])
    ∧ (200 : Nat) ≠ 202 :=
  ⟨rfl, by decide⟩

/-- Claim C3, amended: every request that passes the token check, has a
string normalized payload and whose inline delivery succeeds is answered
with status 200 (FastAPI's default) and the JSON body
`{"status": "sent", "sid": <sid>}` — there is no 202, no `accepted` flag
and no `queued_at` timestamp. -/
theorem webhook_success_returns_200 (secret : String) (token : Option String)
    (parsed : Option Json) (raw : List Nat) (s sid : String)
    (hA : token = none ∨ token = some "" ∨ token = some secret)
    (hs : normText parsed raw = PyText.ofStr s) :
    webhook secret token parsed raw (DelResult.ok sid)
      = [Event.deliveryCall (PyText.ofStr (pyTake s 1600)),
         Event.respond 200 (RespBody.sentBody sid)] := by
  rw [webhook_auth_eq_runBody secret token parsed raw _ hA]
  exact runBody_of_normText_str parsed raw _ s hs

/-- Witness for C3's amended theorem at a concrete successful request. -/
theorem webhook_success_returns_200_witness :
    webhook "s3w" none (some (Json.obj [("message", Json.str "iota")])) []
        (DelResult.ok "SM37")
      = [Event.deliveryCall (PyText.ofStr (pyTake "iota" 1600)),
         Event.respond 200 (RespBody.sentBody "SM37")] :=
  webhook_success_returns_200 "s3w" none
    (some (Json.obj [("message", Json.str "iota")])) [] "iota" "SM37"
    (Or.inl rfl) rfl

/-- Claim C4, counterexample: the empty body yields the empty normalized
message, and it is delivered as-is — no non-empty placeholder is ever
substituted (the code has no such substitution step). -/
theorem webhook_empty_body_no_placeholder_cex :
    normText none [] = PyText.ofStr ""
    ∧ webhook "s4" none none [] (DelResult.ok "SM40")
      = [Event.deliveryCall (PyText.ofStr ""),
         Event.respond 200 (RespBody.sentBody "SM40")] := by
  constructor
  · simp [normText, utf8DecodeIgnore]
  · simp [webhook, runBody, normText, utf8DecodeIgnore, pyTake, respOf]

/-- Claim C4, amended: for every request whose body fails JSON parsing and
whose UTF-8-with-ignore decoding is empty (in particular the empty body),
the normalized message is the empty string and the delivery call is made
with that empty string; no placeholder is substituted. -/
theorem webhook_empty_message_sent_asis (secret : String) (token : Option String)
    (raw : List Nat) (res : DelResult)
    (hA : token = none ∨ token = some "" ∨ token = some secret)
    (hd : utf8DecodeIgnore raw = []) :
    webhook secret token none raw res
      = [Event.deliveryCall (PyText.ofStr ""), respOf res] := by
  rw [webhook_auth_eq_runBody secret token none raw res hA]
  have hn : normText none raw = PyText.ofStr "" := by
    simp [normText, hd]
  simpa [pyTake] using runBody_of_normText_str none raw res "" hn

/-- Witness for C4's amended theorem at the empty body. -/
theorem webhook_empty_message_sent_asis_witness :
    webhook "s4w" none none [] (DelResult.ok "SM44")
      = [Event.deliveryCall (PyText.ofStr ""), respOf (DelResult.ok "SM44")] :=
  webhook_empty_message_sent_asis "s4w" none [] (DelResult.ok "SM44")
    (Or.inl rfl) (by simp [utf8DecodeIgnore])

/-- Claim C5, confirmed: for every request body parsed as a JSON object
whose `message` field holds a non-empty string `s`, every accepted request
delivers exactly `s` truncated to at most 1600 characters. -/
theorem webhook_message_field_delivered (secret : String) (token : Option String)
    (fields : List (String × Json)) (raw : List Nat) (res : DelResult) (s : String)
    (hA : token = none ∨ token = some "" ∨ token = some secret)
    (hm : fields.lookup "message" = some (Json.str s)) (hs : s ≠ "") :
    webhook secret token (some (Json.obj fields)) raw res
      = [Event.deliveryCall (PyText.ofStr (pyTake s 1600)), respOf res]
    ∧ (pyTake s 1600).length ≤ 1600 := by
  refine ⟨?_, length_pyTake_le s 1600⟩
  rw [webhook_auth_eq_runBody secret token _ raw res hA]
  have hn : normText (some (Json.obj fields)) raw = PyText.ofStr s := by
    simp [normText, Json.getMessage, hm, Json.truthy, hs]
  exact runBody_of_normText_str _ raw res s hn

/-- Witness for C5 at the spec's own example body
`{"message": "BTC crossed 50000"}`. -/
theorem webhook_message_field_delivered_witness :
    webhook "s5w" none (some (Json.obj [("message", Json.str "BTC crossed 50000")])) []
        (DelResult.ok "SM55")
      = [Event.deliveryCall (PyText.ofStr (pyTake "BTC crossed 50000" 1600)),
         respOf (DelResult.ok "SM55")] :=
  (webhook_message_field_delivered "s5w" none
    [("message", Json.str "BTC crossed 50000")] [] (DelResult.ok "SM55")
    "BTC crossed 50000" (Or.inl rfl) (by simp) (by decide)).1

/-- Claim C6, confirmed: for every request body that fails JSON parsing,
every accepted request delivers the UTF-8 decoding of the raw bytes with
undecodable sequences dropped, truncated to at most 1600 characters. -/
theorem webhook_non_json_decoded (secret : String) (token : Option String)
    (raw : List Nat) (res : DelResult)
    (hA : token = none ∨ token = some "" ∨ token = some secret) :
    webhook secret token none raw res
      = [Event.deliveryCall
           (PyText.ofStr (pyTake (String.mk (utf8DecodeIgnore raw)) 1600)),
         respOf res]
    ∧ (pyTake (String.mk (utf8DecodeIgnore raw)) 1600).length ≤ 1600 := by
  refine ⟨?_, length_pyTake_le _ 1600⟩
  rw [webhook_auth_eq_runBody secret token none raw res hA]
  exact runBody_of_normText_str none raw res _ rfl

/-- Witness for C6 at the bytes `[65, 255, 66]`: the invalid byte `0xFF`
is dropped and `"AB"` is delivered. -/
theorem webhook_non_json_decoded_witness :
    webhook "s6w" none none [65, 255, 66] (DelResult.ok "SM66")
      = [Event.deliveryCall
           (PyText.ofStr (pyTake (String.mk (utf8DecodeIgnore [65, 255, 66])) 1600)),
         respOf (DelResult.ok "SM66")]
    ∧ String.mk (utf8DecodeIgnore [65, 255, 66]) = "AB" := by
  refine ⟨(webhook_non_json_decoded "s6w" none [65, 255, 66]
    (DelResult.ok "SM66") (Or.inl rfl)).1, ?_⟩
  simp [utf8DecodeIgnore, isCont]

/-- Claim C7, counterexample: a request that supplies the shared-secret
header with the empty string — a value different from the configured
secret `"s7"` — is NOT rejected: because the check is `if token:`, a falsy
header value skips validation entirely and the message is delivered. -/
theorem webhook_empty_token_bypass_cex :
    ("" : String) ≠ "s7"
    ∧ webhook "s7" (some "") (some (Json.obj [("message", Json.str "delta")])) []
        (DelResult.ok "SM70")
      = [Event.deliveryCall (PyText.ofStr "delta"),
         Event.respond 200 (RespBody.sentBody "SM70")] :=
  ⟨by decide, rfl⟩

/-- Claim C7, amended: for every request supplying a NON-EMPTY
shared-secret header value different from the configured secret, the
handler responds `401 Unauthorized` and performs no outbound delivery
(an empty header value, however, bypasses the check). -/
theorem webhook_mismatched_token_401 (secret t : String) (parsed : Option Json)
    (raw : List Nat) (res : DelResult) (hne : t ≠ "") (hmm : t ≠ secret) :
    webhook secret (some t) parsed raw res
      = [Event.respond 401 (RespBody.errorDetail "Unauthorized")]
    ∧ deliveries (webhook secret (some t) parsed raw res) = [] := by
  have h : webhook secret (some t) parsed raw res
      = [Event.respond 401 (RespBody.errorDetail "Unauthorized")] := by
    simp [webhook, hne, hmm]
  exact ⟨h, by rw [h]; rfl⟩

/-- Witness for C7's amended theorem at the header value `"wrong"`. -/
theorem webhook_mismatched_token_401_witness :
    webhook "s7x" (some "wrong") none [] (DelResult.ok "SM77")
      = [Event.respond 401 (RespBody.errorDetail "Unauthorized")] :=
  (webhook_mismatched_token_401 "s7x" "wrong" none [] (DelResult.ok "SM77")
    (by decide) (by decide)).1

/-- Claim C8, confirmed: whenever at least one required configuration
value is falsy (unset or empty), module initialization raises
`RuntimeError` whose message names exactly the missing variables — this
happens at import time, before the app object exists, so no traffic is
ever accepted. -/
theorem startup_missing_config_fails (env : String → Option String)
    (h : missingVars env ≠ []) :
    startupCheck env
      = Except.error ("Missing env vars: " ++ String.intercalate ", " (missingVars env))
    ∧ ∀ n ∈ missingVars env, ∃ v, (n, v) ∈ configPairs env ∧ pyFalsyEnv v = true := by
  constructor
  · by_cases hall : (configPairs env).all (fun p => !pyFalsyEnv p.2) = true
    · exfalso
      apply h
      have hfilter : (configPairs env).filter (fun p => pyFalsyEnv p.2) = [] := by
        rw [List.filter_eq_nil_iff]
        intro p hp
        have := List.all_eq_true.mp hall p hp
        simpa using this
      simp [missingVars, hfilter]
    · simp [startupCheck, hall]
  · intro n hn
    rcases List.mem_map.mp hn with ⟨p, hp, hpn⟩
    rcases List.mem_filter.mp hp with ⟨hpc, hpf⟩
    exact ⟨p.2, by rw [← hpn]; exact hpc, hpf⟩

/-- Witness for C8 at the fully unset environment: all four defaultless
variables are reported missing. -/
theorem startup_missing_config_fails_witness :
    startupCheck (fun _ => none)
      = Except.error ("Missing env vars: "
          ++ String.intercalate ", " (missingVars (fun _ => none))) :=
  (startup_missing_config_fails (fun _ => none) (by decide)).1

/-- Claim C9, confirmed: a request with no `X-Webhook-Token` header is
never rejected as unauthorized — whatever the configured secret, the
handler proceeds to normalization and (for string payloads) to the
delivery call; no response in its trace has status 401. -/
theorem webhook_no_token_never_401 (secret : String) (parsed : Option Json)
    (raw : List Nat) (res : DelResult) :
    webhook secret none parsed raw res = runBody parsed raw res
    ∧ (∀ st b, Event.respond st b ∈ webhook secret none parsed raw res → st ≠ 401)
    ∧ (∀ s, normText parsed raw = PyText.ofStr s →
        Event.deliveryCall (PyText.ofStr (pyTake s 1600))
          ∈ webhook secret none parsed raw res) := by
  refine ⟨rfl, ?_, ?_⟩
  · intro st b hmem
    have hrb : Event.respond st b ∈ runBody parsed raw res := hmem
    rcases runBody_respond_status parsed raw res st b hrb with h | h <;> omega
  · intro s hs
    have h : webhook secret none parsed raw res
        = [Event.deliveryCall (PyText.ofStr (pyTake s 1600)), respOf res] :=
      runBody_of_normText_str parsed raw res s hs
    rw [h]
    exact List.mem_cons_self _ _

/-- Witness for C9: a tokenless request with secret configured still
reaches the delivery call. -/
theorem webhook_no_token_never_401_witness :
    Event.deliveryCall (PyText.ofStr (pyTake "eps" 1600))
      ∈ webhook "s9w" none (some (Json.obj [("message", Json.str "eps")])) []
          (DelResult.ok "SM99") :=
  (webhook_no_token_never_401 "s9w"
    (some (Json.obj [("message", Json.str "eps")])) [] (DelResult.ok "SM99")).2.2
    "eps" rfl

/-- Claim C10, confirmed: for the JSON body `{"message": 42}` — a truthy
non-string `message` value — the handler crashes with an unhandled
`TypeError` at the `text[:100]` log-preview slice, and no outbound
delivery call is made. -/
theorem webhook_nonstring_message_crash :
    webhook "s10" none (some (Json.obj [("message", Json.num 42)])) []
        (DelResult.ok "SMt")
      = [Event.crash]
    ∧ deliveries (webhook "s10" none (some (Json.obj [("message", Json.num 42)])) []
        (DelResult.ok "SMt")) = [] :=
  ⟨rfl, rfl⟩

end TvWhatsapp
